import Mathlib

/-!
Shallow embedding of the contact-form pipeline of this repository:
the sliding-window rate limiter (src/lib/rateLimit.js) and the contact
API route handlers (src/app/api/contact/route.js).

Timestamps are modelled as integers (milliseconds, the values produced by
`Date.now()`); JavaScript numbers on this code path are integer-valued and
well inside the exactly-representable range. Per-key limiter state is the
key's stored `attempts` array; the `firstAttempt` field of the store entry
is kept only for statistics by the source and never read on any path a
claim touches, so it is omitted. Fallible or external steps (JSON body
parsing, the EmailJS dispatches) are modelled by explicit inputs recording
their success.
-/

/-- Mirrors `RATE_LIMIT_CONFIG` in src/lib/rateLimit.js. -/
structure RateLimitConfig where
  windowMs : Int
  maxRequests : Int
  cleanupInterval : Int
deriving Repr, DecidableEq

/-- The active configuration: 1-hour window, 5 requests, 10-minute sweep interval. -/
def RATE_LIMIT_CONFIG : RateLimitConfig :=
  { windowMs := 60 * 60 * 1000
    maxRequests := 5
    cleanupInterval := 10 * 60 * 1000 }

/-- The record returned by `checkRateLimit`. -/
structure RateLimitResult where
  allowed : Bool
  remaining : Int
  resetTime : Int
  retryAfter : Int
deriving Repr, DecidableEq

/-- The sliding-window filter used at rateLimit.js:158 and rateLimit.js:79:
keep the timestamps with `now - timestamp < windowMs`. -/
def liveFilter (now : Int) (attempts : List Int) : List Int :=
  attempts.filter (fun t => decide (now - t < RATE_LIMIT_CONFIG.windowMs))

/-- JavaScript `Math.ceil (a / b)` for an integer `a` and positive integer `b`
(the quotients arising here are far below any double rounding threshold,
so the float division is exact up to the ceiling). -/
def mathCeilDiv (a b : Int) : Int := -((-a).fdiv b)

/-- The function `checkRateLimit` from src/lib/rateLimit.js:144-183, as a function of the
current clock and the key's stored attempts; returns the result record and
the attempts stored for the key afterwards. Notes kept from the source:
`ipData.attempts[0] || now` is a JS falsy test, so a stored timestamp `0`
falls back to `now`; on a denied call the entry's array has nevertheless
been pruned in place by the filter at line 158 (the `Map` holds the same
object that was mutated), so the post-state is the filtered list. -/
def checkRateLimit (now : Int) (attempts : List Int) : RateLimitResult × List Int :=
  let live := liveFilter now attempts
  let currentCount : Int := live.length
  let remaining : Int := max 0 (RATE_LIMIT_CONFIG.maxRequests - currentCount)
  let oldestAttempt : Int :=
    match live.head? with
    | none => now
    | some t => if t = 0 then now else t
  let resetTime : Int := oldestAttempt + RATE_LIMIT_CONFIG.windowMs
  if currentCount < RATE_LIMIT_CONFIG.maxRequests then
    ({ allowed := true, remaining := remaining - 1, resetTime := resetTime, retryAfter := 0 },
      live ++ [now])
  else
    ({ allowed := false, remaining := 0, resetTime := resetTime,
       retryAfter := mathCeilDiv (resetTime - now) 1000 },
      live)

/-- One tick of the sweep installed by `startCleanup` (rateLimit.js:71-94):
collect the keys whose recomputed live subset is empty, then delete exactly
those keys from the store. The store is modelled as an association list
with the `Map`'s key-uniqueness stated as a hypothesis where needed. -/
def cleanupSweep (now : Int) (store : List (String × List Int)) :
    List (String × List Int) :=
  let expiredKeys :=
    (store.filter (fun kv => decide ((liveFilter now kv.2).length = 0))).map Prod.fst
  store.filter (fun kv => decide (kv.1 ∉ expiredKeys))

/-- The admin helper `resetRateLimit` from rateLimit.js:212-215: drop one key. -/
def resetRateLimit (ip : String) (store : List (String × List Int)) :
    List (String × List Int) :=
  store.filter (fun kv => decide (kv.1 ≠ "contact:" ++ ip))

/-- A JavaScript value, as far as the handler's truthiness tests observe it. -/
inductive JValue where
  | undef
  | null
  | bool (b : Bool)
  | str (s : String)
  | num (n : Int)
deriving Repr, DecidableEq

/-- JavaScript truthiness for the modelled values: `undefined`, `null`,
`false`, `""` and `0` are falsy, everything else truthy. -/
def JValue.truthy : JValue → Bool
  | .undef => false
  | .null => false
  | .bool b => b
  | .str s => decide (s ≠ "")
  | .num n => decide (n ≠ 0)

/-- JS truthiness of a possibly-absent string (a `process.env` entry or a
cookie/header value): absent and `""` are falsy. -/
def jsTruthy : Option String → Bool
  | none => false
  | some s => decide (s ≠ "")

/-- The CSRF rejection test at route.js:64:
`!csrfTokenFromCookie || csrfTokenFromCookie !== csrfTokenFromHeader`.
The header is `null` when absent, and a strict comparison of the cookie
string with `null` or a different string fails. -/
def csrfRejected (cookie header : Option String) : Bool :=
  !jsTruthy cookie || decide (header ≠ cookie)

/-- The fields of the parsed JSON body that route.js reads; a key the client
did not send reads as `undefined`. -/
structure ContactBody where
  name : JValue
  email : JValue
  message : JValue
  rgpd : JValue
  phone : JValue
  requestType : JValue
  sector : JValue
deriving Repr, DecidableEq

/-- The parts of the inbound request the POST handler consumes. `body = none`
models `request.json()` throwing on a malformed body (caught by the
handler's catch-all). -/
structure ContactRequest where
  xForwardedFor : Option String
  xRealIp : Option String
  csrfCookie : Option String
  csrfHeader : Option String
  body : Option ContactBody
deriving Repr, DecidableEq

/-- The EmailJS process-environment entries read at route.js:82-85 and 115. -/
structure EmailEnv where
  serviceId : Option String
  templateId : Option String
  publicKey : Option String
  privateKey : Option String
  autoresponseTemplateId : Option String
deriving Repr, DecidableEq

/-- The configuration guard at route.js:87: `!serviceId || !templateId ||
!publicKey`. `privateKey` is read at line 85 but not tested here. -/
def emailConfigMissing (env : EmailEnv) : Bool :=
  !jsTruthy env.serviceId || !jsTruthy env.templateId || !jsTruthy env.publicKey

/-- Client-IP extraction at route.js:35-37:
`x-forwarded-for` split on commas, first entry trimmed, then the JS falsy
fallbacks to `x-real-ip` and the literal `"unknown"`. -/
def extractIp (req : ContactRequest) : String :=
  let fwd : Option String :=
    match req.xForwardedFor with
    | none => none
    | some s => some (((s.splitOn ",").headD "").trim)
  let realIpOrUnknown : String :=
    match req.xRealIp with
    | none => "unknown"
    | some r => if r = "" then "unknown" else r
  match fwd with
  | none => realIpOrUnknown
  | some f => if f = "" then realIpOrUnknown else f

/-- The distinct responses the contact route produces, carrying the payload
values a claim mentions. -/
inductive Outcome where
  | tooMany (retryAfter : Int) (resetTime : Int)
  | forbidden
  | badRequest
  | notConfigured
  | sendFailed
  | sent (remaining : Int) (resetTime : Int)
  | methodNotAllowed
deriving Repr, DecidableEq

/-- HTTP status of each outcome (route.js: 429, 403, 400, 500, 500, 200, 405). -/
def Outcome.status : Outcome → Nat
  | .tooMany _ _ => 429
  | .forbidden => 403
  | .badRequest => 400
  | .notConfigured => 500
  | .sendFailed => 500
  | .sent _ _ => 200
  | .methodNotAllowed => 405

/-- The POST handler of src/app/api/contact/route.js:32-146, as a function of
the request, the environment, the clock, the key's stored attempts, and the
success of the two EmailJS dispatches. Control flow follows the source:
rate limit, then CSRF, then body parse, then field validation, then the
config guard, then the primary send, then the optional autoresponse send;
any throw inside the `try` (body parse or a dispatch) lands in the
catch-all 500. Returns the outcome and the attempts stored afterwards. -/
def POST (req : ContactRequest) (env : EmailEnv) (now : Int) (attempts : List Int)
    (sendOk autoOk : Bool) : Outcome × List Int :=
  let r := checkRateLimit now attempts
  let attemptsAfter := r.2
  if r.1.allowed = false then
    (.tooMany r.1.retryAfter r.1.resetTime, attemptsAfter)
  else if csrfRejected req.csrfCookie req.csrfHeader then
    (.forbidden, attemptsAfter)
  else
    match req.body with
    | none => (.sendFailed, attemptsAfter)
    | some b =>
      if !b.name.truthy || !b.email.truthy || !b.message.truthy || !b.rgpd.truthy then
        (.badRequest, attemptsAfter)
      else if emailConfigMissing env then
        (.notConfigured, attemptsAfter)
      else if !sendOk then
        (.sendFailed, attemptsAfter)
      else if jsTruthy env.autoresponseTemplateId &&
          decide (env.autoresponseTemplateId ≠ some "your_autoresponse_template_id_here") then
        if !autoOk then (.sendFailed, attemptsAfter)
        else (.sent r.1.remaining r.1.resetTime, attemptsAfter)
      else
        (.sent r.1.remaining r.1.resetTime, attemptsAfter)

/-- The GET handler of route.js:149-154: an unconditional 405 response. -/
def GET : Outcome := .methodNotAllowed

/-- Modelled from the spec: the method dispatch in front of the route module.
The source exports only `POST` and `GET`; the framework's routing of other
verbs is not part of src/, and spec §4.3 states "A GET (or any non-POST)
arrival on the submission endpoint is always and immediately
REJECTED(method_not_allowed)". A non-POST request runs no handler logic and
leaves the limiter store untouched. -/
def handleContact (method : String) (req : ContactRequest) (env : EmailEnv)
    (now : Int) (attempts : List Int) (sendOk autoOk : Bool) : Outcome × List Int :=
  if method = "POST" then POST req env now attempts sendOk autoOk
  else (GET, attempts)

/-- The limiter contract exactly as spec §4.1 words it, for comparison with
`checkRateLimit`: `remaining = maxRequests - count - 1`, `resetAt =
oldestLiveTimestamp + windowMs` (the oldest live attempt, or `now` plus the
window when there is none), `retryAfterSeconds = ceil((resetAt - now)/1000)`
on denial. -/
def admitSpec (now : Int) (attempts : List Int) : RateLimitResult × List Int :=
  let live := liveFilter now attempts
  let count : Int := live.length
  let resetAt : Int :=
    match live.head? with
    | none => now + RATE_LIMIT_CONFIG.windowMs
    | some t => t + RATE_LIMIT_CONFIG.windowMs
  if count < RATE_LIMIT_CONFIG.maxRequests then
    ({ allowed := true, remaining := RATE_LIMIT_CONFIG.maxRequests - count - 1,
       resetTime := resetAt, retryAfter := 0 },
      live ++ [now])
  else
    ({ allowed := false, remaining := 0, resetTime := resetAt,
       retryAfter := mathCeilDiv (resetAt - now) 1000 },
      live)

/-- A complete, valid submission body used to instantiate witnesses. -/
def sampleBody : ContactBody :=
  { name := .str "Ada", email := .str "ada@example.com", message := .str "Hello"
    rgpd := .bool true, phone := .undef, requestType := .str "devis", sector := .undef }

/-- A request with matching CSRF tokens and the valid body. -/
def sampleReq : ContactRequest :=
  { xForwardedFor := some "1.2.3.4", xRealIp := none
    csrfCookie := some "tok", csrfHeader := some "tok", body := some sampleBody }

/-- A fully configured EmailJS environment. -/
def sampleEnv : EmailEnv :=
  { serviceId := some "service", templateId := some "template"
    publicKey := some "pub", privateKey := some "priv"
    autoresponseTemplateId := none }

/-! ## Helper lemmas -/

lemma liveFilter_eq_self {now : Int} {l : List Int}
    (h : ∀ t ∈ l, now - t < RATE_LIMIT_CONFIG.windowMs) : liveFilter now l = l :=
  List.filter_eq_self.mpr (fun a ha => decide_eq_true (h a ha))

lemma checkRateLimit_allowed_parts (now : Int) (l : List Int)
    (hl : liveFilter now l = l) (hc : (l.length : Int) < RATE_LIMIT_CONFIG.maxRequests) :
    (checkRateLimit now l).1.allowed = true ∧
    (checkRateLimit now l).1.remaining = RATE_LIMIT_CONFIG.maxRequests - l.length - 1 ∧
    (checkRateLimit now l).2 = l ++ [now] := by
  simp only [checkRateLimit, hl]
  rw [if_pos hc]
  refine ⟨rfl, ?_, rfl⟩
  have h5 : RATE_LIMIT_CONFIG.maxRequests = 5 := rfl
  rw [h5] at hc
  dsimp only
  rw [h5, max_eq_right (by omega : (0 : Int) ≤ 5 - (l.length : Int))]

lemma checkRateLimit_denied_allowed (now : Int) (l : List Int)
    (hc : ¬(((liveFilter now l).length : Int) < RATE_LIMIT_CONFIG.maxRequests)) :
    (checkRateLimit now l).1.allowed = false := by
  simp only [checkRateLimit]
  rw [if_neg hc]

/-- C1: for every key, starting from an empty entry, five calls to
`checkRateLimit` within one `windowMs` are all allowed with strictly
decreasing `remaining` values 4, 3, 2, 1, 0 (and each call appends its
timestamp), and a sixth call within the same window is denied. -/
theorem checkRateLimit_five_admits_then_deny (t1 t2 t3 t4 t5 t6 : Int)
    (h12 : t1 ≤ t2) (h23 : t2 ≤ t3) (h34 : t3 ≤ t4) (h45 : t4 ≤ t5) (h56 : t5 ≤ t6)
    (hspan : t6 - t1 < RATE_LIMIT_CONFIG.windowMs) :
    ((checkRateLimit t1 []).1.allowed = true ∧ (checkRateLimit t1 []).1.remaining = 4 ∧
      (checkRateLimit t1 []).2 = [t1]) ∧
    ((checkRateLimit t2 [t1]).1.allowed = true ∧ (checkRateLimit t2 [t1]).1.remaining = 3 ∧
      (checkRateLimit t2 [t1]).2 = [t1, t2]) ∧
    ((checkRateLimit t3 [t1, t2]).1.allowed = true ∧
      (checkRateLimit t3 [t1, t2]).1.remaining = 2 ∧
      (checkRateLimit t3 [t1, t2]).2 = [t1, t2, t3]) ∧
    ((checkRateLimit t4 [t1, t2, t3]).1.allowed = true ∧
      (checkRateLimit t4 [t1, t2, t3]).1.remaining = 1 ∧
      (checkRateLimit t4 [t1, t2, t3]).2 = [t1, t2, t3, t4]) ∧
    ((checkRateLimit t5 [t1, t2, t3, t4]).1.allowed = true ∧
      (checkRateLimit t5 [t1, t2, t3, t4]).1.remaining = 0 ∧
      (checkRateLimit t5 [t1, t2, t3, t4]).2 = [t1, t2, t3, t4, t5]) ∧
    (checkRateLimit t6 [t1, t2, t3, t4, t5]).1.allowed = false := by
  have hw : RATE_LIMIT_CONFIG.windowMs = 3600000 := rfl
  rw [hw] at hspan
  have f1 : liveFilter t1 ([] : List Int) = [] := rfl
  have f2 : liveFilter t2 [t1] = [t1] := liveFilter_eq_self (by
    intro t ht; rw [hw]
    simp only [List.mem_singleton] at ht
    subst ht; omega)
  have f3 : liveFilter t3 [t1, t2] = [t1, t2] := liveFilter_eq_self (by
    intro t ht; rw [hw]
    simp only [List.mem_cons, List.mem_singleton] at ht
    rcases ht with rfl | rfl | h
    · omega
    · omega
    · cases h)
  have f4 : liveFilter t4 [t1, t2, t3] = [t1, t2, t3] := liveFilter_eq_self (by
    intro t ht; rw [hw]
    simp only [List.mem_cons, List.mem_singleton] at ht
    rcases ht with rfl | rfl | rfl | h
    · omega
    · omega
    · omega
    · cases h)
  have f5 : liveFilter t5 [t1, t2, t3, t4] = [t1, t2, t3, t4] := liveFilter_eq_self (by
    intro t ht; rw [hw]
    simp only [List.mem_cons, List.mem_singleton] at ht
    rcases ht with rfl | rfl | rfl | rfl | h
    · omega
    · omega
    · omega
    · omega
    · cases h)
  have f6 : liveFilter t6 [t1, t2, t3, t4, t5] = [t1, t2, t3, t4, t5] :=
    liveFilter_eq_self (by
      intro t ht; rw [hw]
      simp only [List.mem_cons, List.mem_singleton] at ht
      rcases ht with rfl | rfl | rfl | rfl | rfl | h
      · omega
      · omega
      · omega
      · omega
      · omega
      · cases h)
  obtain ⟨a1, r1, s1⟩ := checkRateLimit_allowed_parts t1 [] f1 (by simp [RATE_LIMIT_CONFIG])
  obtain ⟨a2, r2, s2⟩ := checkRateLimit_allowed_parts t2 [t1] f2 (by simp [RATE_LIMIT_CONFIG])
  obtain ⟨a3, r3, s3⟩ :=
    checkRateLimit_allowed_parts t3 [t1, t2] f3 (by simp [RATE_LIMIT_CONFIG])
  obtain ⟨a4, r4, s4⟩ :=
    checkRateLimit_allowed_parts t4 [t1, t2, t3] f4 (by simp [RATE_LIMIT_CONFIG])
  obtain ⟨a5, r5, s5⟩ :=
    checkRateLimit_allowed_parts t5 [t1, t2, t3, t4] f5 (by simp [RATE_LIMIT_CONFIG])
  have a6 : (checkRateLimit t6 [t1, t2, t3, t4, t5]).1.allowed = false :=
    checkRateLimit_denied_allowed t6 [t1, t2, t3, t4, t5]
      (by rw [f6]; simp [RATE_LIMIT_CONFIG])
  exact ⟨⟨a1, by rw [r1]; rfl, s1⟩, ⟨a2, by rw [r2]; rfl, s2⟩,
    ⟨a3, by rw [r3]; rfl, s3⟩, ⟨a4, by rw [r4]; rfl, s4⟩,
    ⟨a5, by rw [r5]; rfl, s5⟩, a6⟩

/-- Witness for C1 at the concrete call times 10, 20, 30, 40, 50, 60. -/
theorem checkRateLimit_five_admits_then_deny_witness :
    (checkRateLimit 60 [10, 20, 30, 40, 50]).1.allowed = false :=
  (checkRateLimit_five_admits_then_deny 10 20 30 40 50 60
    (by decide) (by decide) (by decide) (by decide) (by decide)
    (by decide)).2.2.2.2.2

lemma checkRateLimit_allowed_iff (now : Int) (l : List Int) :
    (checkRateLimit now l).1.allowed = true ↔
      (((liveFilter now l).length : Int) < RATE_LIMIT_CONFIG.maxRequests) := by
  simp only [checkRateLimit]
  by_cases hc : (((liveFilter now l).length : Int) < RATE_LIMIT_CONFIG.maxRequests)
  · rw [if_pos hc]; simpa using hc
  · rw [if_neg hc]; simpa using hc

/-- C3: with the quota for a key exhausted by five admitted calls at
`t1 ≤ … ≤ t5` inside one window, every further call up to the `resetAt`
of the first admitted attempt (`t1 + windowMs`) is still denied, and any
call after that instant is allowed again: the window slides per-timestamp
instead of resetting at fixed boundaries. -/
theorem checkRateLimit_window_slides (t1 t2 t3 t4 t5 : Int)
    (h12 : t1 ≤ t2) (h23 : t2 ≤ t3) (h34 : t3 ≤ t4) (h45 : t4 ≤ t5)
    (hspan : t5 - t1 < RATE_LIMIT_CONFIG.windowMs) :
    (∀ t', t5 ≤ t' → t' - t1 < RATE_LIMIT_CONFIG.windowMs →
      (checkRateLimit t' [t1, t2, t3, t4, t5]).1.allowed = false) ∧
    (∀ t'', t1 + RATE_LIMIT_CONFIG.windowMs < t'' →
      (checkRateLimit t'' [t1, t2, t3, t4, t5]).1.allowed = true) := by
  have hw : RATE_LIMIT_CONFIG.windowMs = 3600000 := rfl
  rw [hw] at hspan
  constructor
  · intro t' h5t hwin
    rw [hw] at hwin
    have hfl : liveFilter t' [t1, t2, t3, t4, t5] = [t1, t2, t3, t4, t5] :=
      liveFilter_eq_self (by
        intro t ht; rw [hw]
        simp only [List.mem_cons, List.mem_singleton] at ht
        rcases ht with rfl | rfl | rfl | rfl | rfl | h
        · omega
        · omega
        · omega
        · omega
        · omega
        · cases h)
    exact checkRateLimit_denied_allowed t' _ (by rw [hfl]; simp [RATE_LIMIT_CONFIG])
  · intro t'' h6
    rw [hw] at h6
    have hc1 : decide (t'' - t1 < RATE_LIMIT_CONFIG.windowMs) = false := by
      rw [hw]; simp only [decide_eq_false_iff_not]; omega
    have hfl : liveFilter t'' [t1, t2, t3, t4, t5] =
        List.filter (fun t => decide (t'' - t < RATE_LIMIT_CONFIG.windowMs))
          [t2, t3, t4, t5] := by
      unfold liveFilter
      rw [List.filter_cons, hc1]
      simp
    have hlen : (((liveFilter t'' [t1, t2, t3, t4, t5]).length : Int) <
        RATE_LIMIT_CONFIG.maxRequests) := by
      have hle := List.length_filter_le
        (fun t => decide (t'' - t < RATE_LIMIT_CONFIG.windowMs)) [t2, t3, t4, t5]
      rw [hfl]
      simp only [List.length_cons, List.length_nil] at hle
      have h5 : RATE_LIMIT_CONFIG.maxRequests = 5 := rfl
      rw [h5]
      omega
    exact (checkRateLimit_allowed_iff t'' _).mpr hlen

/-- Witness for C3: five attempts at 1…5, a call at 3700000 (past
1 + windowMs = 3600001) is allowed again. -/
theorem checkRateLimit_window_slides_witness :
    (checkRateLimit 3700000 [1, 2, 3, 4, 5]).1.allowed = true :=
  (checkRateLimit_window_slides 1 2 3 4 5
    (by decide) (by decide) (by decide) (by decide) (by decide)).2
    3700000 (by decide)

/-- C2 counterexample: the state `[0]` is reachable (a first call at clock 0
stores timestamp 0), and at `now = 1` that timestamp is live, so the
claimed formula gives `resetAt = 0 + windowMs = 3600000`; but
`attempts[0] || now` treats the stored 0 as falsy and the code answers
`now + windowMs = 3600001` instead. -/
theorem checkRateLimit_resetTime_zero_counterexample :
    (checkRateLimit 0 []).2 = [0] ∧
    liveFilter 1 [0] = [0] ∧
    (checkRateLimit 1 [0]).1.resetTime = 3600001 ∧
    (checkRateLimit 1 [0]).1.resetTime ≠ 0 + RATE_LIMIT_CONFIG.windowMs ∧
    checkRateLimit 1 [0] ≠ admitSpec 1 [0] := by decide

/-- C2 (amended): as long as no stored timestamp equals 0 (the JS falsy
fallback `attempts[0] || now` only misfires on a literal 0), each call to
`checkRateLimit` realises the spec's admit contract `admitSpec` exactly:
same admit decision, same `remaining`, same `resetAt`, same
`retryAfterSeconds`, and the same stored attempts afterwards. -/
theorem checkRateLimit_matches_admitSpec (now : Int) (attempts : List Int)
    (h0 : (0 : Int) ∉ attempts) :
    checkRateLimit now attempts = admitSpec now attempts := by
  simp only [checkRateLimit, admitSpec]
  cases hl : liveFilter now attempts with
  | nil => simp [RATE_LIMIT_CONFIG]
  | cons t ts =>
    have htmem : t ∈ attempts := by
      have hmem : t ∈ liveFilter now attempts := by
        rw [hl]; exact List.mem_cons_self t ts
      exact (List.mem_filter.mp hmem).1
    have ht0 : ¬(t = 0) := fun h => h0 (h ▸ htmem)
    simp only [List.head?_cons]
    rw [if_neg ht0]
    by_cases hc : (((t :: ts).length : Int) < RATE_LIMIT_CONFIG.maxRequests)
    · rw [if_pos hc, if_pos hc]
      have h5 : RATE_LIMIT_CONFIG.maxRequests = 5 := rfl
      rw [h5] at hc
      simp only [Prod.mk.injEq, RateLimitResult.mk.injEq, and_true, true_and]
      rw [h5, max_eq_right (by omega : (0 : Int) ≤ 5 - ((t :: ts).length : Int))]
    · rw [if_neg hc, if_neg hc]

/-- Witness for C2 (amended) at `now = 5`, stored attempts `[1]`. -/
theorem checkRateLimit_matches_admitSpec_witness :
    checkRateLimit 5 [1] = admitSpec 5 [1] :=
  checkRateLimit_matches_admitSpec 5 [1] (by decide)

lemma liveFilter_idem_mono (now now' : Int) (hle : now ≤ now') (l : List Int) :
    liveFilter now' (liveFilter now l) = liveFilter now' l := by
  unfold liveFilter
  rw [List.filter_filter]
  refine List.filter_congr ?_
  intro a ha
  have hw : RATE_LIMIT_CONFIG.windowMs = 3600000 := rfl
  by_cases h1 : now' - a < RATE_LIMIT_CONFIG.windowMs
  · have h2 : now - a < RATE_LIMIT_CONFIG.windowMs := by rw [hw] at h1 ⊢; omega
    simp [h1, h2]
  · simp [h1]

/-- C9: a denied `checkRateLimit` call appends nothing — afterwards the key
holds exactly the live subset of its previous attempts, every stored
timestamp was already stored before, and any later call (the clock not
having gone backwards) gets exactly the result it would have gotten had
the denied call never happened: retrying while blocked never extends the
block. -/
theorem checkRateLimit_denied_no_append (now now' : Int) (attempts : List Int)
    (hdeny : (checkRateLimit now attempts).1.allowed = false) (hle : now ≤ now') :
    (checkRateLimit now attempts).2 = liveFilter now attempts ∧
    (∀ t ∈ (checkRateLimit now attempts).2, t ∈ attempts) ∧
    checkRateLimit now' ((checkRateLimit now attempts).2) =
      checkRateLimit now' attempts := by
  have hstate : (checkRateLimit now attempts).2 = liveFilter now attempts := by
    by_cases hc : (((liveFilter now attempts).length : Int) < RATE_LIMIT_CONFIG.maxRequests)
    · have hall := (checkRateLimit_allowed_iff now attempts).mpr hc
      rw [hall] at hdeny
      cases hdeny
    · simp only [checkRateLimit]
      rw [if_neg hc]
  refine ⟨hstate, ?_, ?_⟩
  · intro t ht
    rw [hstate] at ht
    exact (List.mem_filter.mp ht).1
  · rw [hstate]
    simp only [checkRateLimit]
    rw [liveFilter_idem_mono now now' hle]

/-- Witness for C9: with the window full at attempts 1…5, the denied call at
10 leaves the entry so that a call at 20 behaves exactly as without it. -/
theorem checkRateLimit_denied_no_append_witness :
    checkRateLimit 20 ((checkRateLimit 10 [1, 2, 3, 4, 5]).2) =
      checkRateLimit 20 [1, 2, 3, 4, 5] :=
  (checkRateLimit_denied_no_append 10 20 [1, 2, 3, 4, 5]
    (by decide) (by decide)).2.2

/-- C6: a sweep tick keeps a store entry iff its recomputed live subset is
non-empty — exactly the entries with zero live attempts are removed, and an
entry with at least one live attempt is never removed (key uniqueness is
the `Map` invariant of the store). -/
theorem cleanupSweep_removes_exactly_dead (now : Int)
    (store : List (String × List Int)) (hnd : (store.map Prod.fst).Nodup)
    (kv : String × List Int) :
    kv ∈ cleanupSweep now store ↔ kv ∈ store ∧ liveFilter now kv.2 ≠ [] := by
  simp only [cleanupSweep]
  rw [List.mem_filter]
  simp only [decide_eq_true_eq]
  constructor
  · rintro ⟨hmem, hnotin⟩
    refine ⟨hmem, fun hempty => hnotin ?_⟩
    refine List.mem_map_of_mem Prod.fst (List.mem_filter.mpr ⟨hmem, ?_⟩)
    simp [hempty]
  · rintro ⟨hmem, hne⟩
    refine ⟨hmem, fun hin => ?_⟩
    rcases List.mem_map.mp hin with ⟨kv', hkv', hkey⟩
    have hkv'mem : kv' ∈ store := (List.mem_filter.mp hkv').1
    have hkv'dead : (liveFilter now kv'.2).length = 0 := by
      have hd := (List.mem_filter.mp hkv').2
      simpa using hd
    have hkveq : kv' = kv := List.inj_on_of_nodup_map hnd hkv'mem hmem hkey
    rw [hkveq] at hkv'dead
    exact hne (List.length_eq_zero.mp hkv'dead)

/-- Witness for C6: at `now = 3600001` the entry with the single dead attempt
0 is swept, while the entry whose attempt 5 is still live survives. -/
theorem cleanupSweep_removes_exactly_dead_witness :
    ("contact:b", ([5] : List Int)) ∈
      cleanupSweep 3600001 [("contact:a", [0]), ("contact:b", [5])] :=
  (cleanupSweep_removes_exactly_dead 3600001
    [("contact:a", [0]), ("contact:b", [5])] (by decide)
    ("contact:b", [5])).mpr (by decide)

/-! ## Handler lemmas -/

lemma POST_state_eq (req : ContactRequest) (env : EmailEnv) (now : Int)
    (attempts : List Int) (sendOk autoOk : Bool) :
    (POST req env now attempts sendOk autoOk).2 = (checkRateLimit now attempts).2 := by
  simp only [POST]
  repeat' split
  all_goals rfl

/-- C8: whenever the limiter admits the request (`allowed = true`), the POST
handler never rolls the appended attempt back — whatever happens afterwards
(CSRF rejection, invalid payload, configuration or dispatch failure, or
success), the key's stored attempts end as the live subset plus `now`, so a
rejected-but-admitted submission still consumes one unit of quota. -/
theorem admitted_attempt_persists (req : ContactRequest) (env : EmailEnv)
    (now : Int) (attempts : List Int) (sendOk autoOk : Bool)
    (hallow : (checkRateLimit now attempts).1.allowed = true) :
    (POST req env now attempts sendOk autoOk).2 = liveFilter now attempts ++ [now] ∧
    now ∈ (POST req env now attempts sendOk autoOk).2 := by
  have hs : (checkRateLimit now attempts).2 = liveFilter now attempts ++ [now] := by
    by_cases hc : (((liveFilter now attempts).length : Int) < RATE_LIMIT_CONFIG.maxRequests)
    · simp only [checkRateLimit]
      rw [if_pos hc]
    · exact absurd ((checkRateLimit_allowed_iff now attempts).mp hallow) hc
  rw [POST_state_eq, hs]
  exact ⟨rfl, by simp⟩

/-- Witness for C8: a CSRF-rejected POST at time 7 still stores timestamp 7. -/
theorem admitted_attempt_persists_witness :
    (7 : Int) ∈ (POST { sampleReq with csrfHeader := some "other" }
      sampleEnv 7 [] true true).2 :=
  (admitted_attempt_persists { sampleReq with csrfHeader := some "other" }
    sampleEnv 7 [] true true (by decide)).2

lemma POST_forbidden_iff (req : ContactRequest) (env : EmailEnv) (now : Int)
    (attempts : List Int) (sendOk autoOk : Bool)
    (hallow : (checkRateLimit now attempts).1.allowed = true) :
    ((POST req env now attempts sendOk autoOk).1 = .forbidden ↔
      csrfRejected req.csrfCookie req.csrfHeader = true) := by
  by_cases hcs : csrfRejected req.csrfCookie req.csrfHeader = true
  · simp [POST, hallow, hcs]
  · simp only [Bool.not_eq_true] at hcs
    simp only [POST, hallow, hcs, Bool.true_eq_false, if_false, Bool.false_eq_true]
    cases hb : req.body with
    | none => simp [hcs]
    | some b =>
      simp only [hcs, Bool.false_eq_true, iff_false, if_false]
      split_ifs <;> simp

/-- C4 counterexample: a cookie that is present (not `none`) with value `""`
and an identical header are "present and equal", yet the guard
`!csrfTokenFromCookie || …` treats the empty cookie as falsy and the
handler answers 403 instead of passing the CSRF stage. -/
theorem csrf_empty_token_counterexample :
    (some "" ≠ (none : Option String)) ∧
    (POST { sampleReq with csrfCookie := some "", csrfHeader := some "" }
      sampleEnv 0 [] true true).1 = Outcome.forbidden := by decide

/-- C4 (amended): for a POST that passed the rate limit, a missing cookie
token, a missing header token, or unequal present tokens always yield the
forbidden outcome (403); present, equal and *non-empty* tokens pass the
CSRF stage (the outcome is never 403), regardless of payload validity. -/
theorem csrf_gate (req : ContactRequest) (env : EmailEnv) (now : Int)
    (attempts : List Int) (sendOk autoOk : Bool)
    (hallow : (checkRateLimit now attempts).1.allowed = true) :
    (req.csrfCookie = none →
      (POST req env now attempts sendOk autoOk).1 = Outcome.forbidden) ∧
    (req.csrfHeader = none →
      (POST req env now attempts sendOk autoOk).1 = Outcome.forbidden) ∧
    (∀ c h', req.csrfCookie = some c → req.csrfHeader = some h' → c ≠ h' →
      (POST req env now attempts sendOk autoOk).1 = Outcome.forbidden) ∧
    (∀ c, c ≠ "" → req.csrfCookie = some c → req.csrfHeader = some c →
      (POST req env now attempts sendOk autoOk).1 ≠ Outcome.forbidden) ∧
    Outcome.status Outcome.forbidden = 403 := by
  have hiff := POST_forbidden_iff req env now attempts sendOk autoOk hallow
  refine ⟨?_, ?_, ?_, ?_, rfl⟩
  · intro hc
    exact hiff.mpr (by simp [csrfRejected, hc, jsTruthy])
  · intro hh
    refine hiff.mpr ?_
    cases hcook : req.csrfCookie with
    | none => simp [csrfRejected, hcook, jsTruthy]
    | some c => simp [csrfRejected, hcook, hh]
  · intro c h' hc hh hne
    exact hiff.mpr (by simp [csrfRejected, hc, hh, Ne.symm hne])
  · intro c hcne hc hh
    have hfalse : csrfRejected req.csrfCookie req.csrfHeader = false := by
      simp [csrfRejected, hc, hh, jsTruthy, hcne]
    intro hforb
    rw [hiff, hfalse] at hforb
    cases hforb

/-- Witness for C4 (amended): with no cookie token the outcome is 403. -/
theorem csrf_gate_witness :
    (POST { sampleReq with csrfCookie := none } sampleEnv 0 [] true true).1 =
      Outcome.forbidden :=
  (csrf_gate { sampleReq with csrfCookie := none } sampleEnv 0 [] true true
    (by decide)).1 rfl

/-- C5 counterexample: a payload whose `rgpd` is the truthy non-boolean
`"yes"` is *not* rejected — `!body.rgpd` only tests truthiness, so the
request sails through validation and is sent (200), where the claim
demands a 400. -/
theorem rgpd_truthy_not_bool_counterexample :
    (JValue.str "yes").truthy = true ∧
    JValue.str "yes" ≠ JValue.bool true ∧
    (POST { sampleReq with body := some { sampleBody with rgpd := JValue.str "yes" } }
      sampleEnv 0 [] true true).1 ≠ Outcome.badRequest ∧
    Outcome.status (POST
      { sampleReq with body := some { sampleBody with rgpd := JValue.str "yes" } }
      sampleEnv 0 [] true true).1 = 200 := by decide

/-- C5 (amended): for a POST that passed the rate limit and the CSRF stage
with a parseable body, the handler answers 400 exactly when one of `name`,
`email`, `message`, `rgpd` is not truthy — `rgpd` need only be truthy, not
the boolean `true`. -/
theorem validation_gate (req : ContactRequest) (env : EmailEnv) (now : Int)
    (attempts : List Int) (sendOk autoOk : Bool) (b : ContactBody)
    (hallow : (checkRateLimit now attempts).1.allowed = true)
    (hcs : csrfRejected req.csrfCookie req.csrfHeader = false)
    (hb : req.body = some b) :
    ((POST req env now attempts sendOk autoOk).1 = Outcome.badRequest ↔
      ¬(b.name.truthy = true ∧ b.email.truthy = true ∧
        b.message.truthy = true ∧ b.rgpd.truthy = true)) ∧
    Outcome.status Outcome.badRequest = 400 := by
  refine ⟨?_, rfl⟩
  by_cases hv : (!b.name.truthy || !b.email.truthy ||
      !b.message.truthy || !b.rgpd.truthy) = true
  · have hout : (POST req env now attempts sendOk autoOk).1 = Outcome.badRequest := by
      simp [POST, hallow, hcs, hb, hv]
    rw [hout]
    simp only [true_iff]
    rintro ⟨h1, h2, h3, h4⟩
    rw [h1, h2, h3, h4] at hv
    simp at hv
  · have hout : (POST req env now attempts sendOk autoOk).1 ≠ Outcome.badRequest := by
      simp only [POST, hallow, hcs, hb, Bool.false_eq_true, if_false]
      split_ifs <;> simp_all
    simp only [hout, false_iff, not_not]
    simp only [Bool.or_eq_true, Bool.not_eq_true', not_or, Bool.not_eq_false] at hv
    exact ⟨hv.1.1.1, hv.1.1.2, hv.1.2, hv.2⟩

/-- Witness for C5 (amended): a body with `name` missing is answered 400. -/
theorem validation_gate_witness :
    (POST { sampleReq with body := some { sampleBody with name := JValue.undef } }
      sampleEnv 0 [] true true).1 = Outcome.badRequest :=
  ((validation_gate { sampleReq with body := some { sampleBody with name := JValue.undef } }
    sampleEnv 0 [] true true { sampleBody with name := JValue.undef }
    (by decide) (by decide) rfl).1).mpr (by decide)

/-- C7: a GET — or any non-POST — arrival at the contact endpoint is answered
405 unconditionally: the GET handler is a constant, no limiter, CSRF or
validation logic runs, and the limiter store is unchanged. -/
theorem non_post_method_rejected (method : String) (req : ContactRequest)
    (env : EmailEnv) (now : Int) (attempts : List Int) (sendOk autoOk : Bool)
    (h : method ≠ "POST") :
    handleContact method req env now attempts sendOk autoOk =
      (Outcome.methodNotAllowed, attempts) ∧
    GET = Outcome.methodNotAllowed ∧
    Outcome.status Outcome.methodNotAllowed = 405 := by
  refine ⟨?_, rfl, rfl⟩
  simp [handleContact, h, GET]

/-- Witness for C7 at method "GET" with an empty store. -/
theorem non_post_method_rejected_witness :
    handleContact "GET" sampleReq sampleEnv 0 [] true true =
      (Outcome.methodNotAllowed, []) :=
  (non_post_method_rejected "GET" sampleReq sampleEnv 0 [] true true
    (by decide)).1

/-- C10: the configuration guard reads only the service id, template id and
public key — it is insensitive to `privateKey` — and with those three set a
missing private key never produces the 500 "not configured" response; the
dispatch is still attempted and a dispatch failure surfaces only through
the catch-all 500. -/
theorem config_guard_ignores_private_key (req : ContactRequest) (env : EmailEnv)
    (now : Int) (attempts : List Int) (autoOk : Bool) (b : ContactBody)
    (hallow : (checkRateLimit now attempts).1.allowed = true)
    (hcs : csrfRejected req.csrfCookie req.csrfHeader = false)
    (hb : req.body = some b)
    (hv : b.name.truthy = true ∧ b.email.truthy = true ∧
      b.message.truthy = true ∧ b.rgpd.truthy = true)
    (hs : jsTruthy env.serviceId = true) (ht : jsTruthy env.templateId = true)
    (hp : jsTruthy env.publicKey = true) :
    (∀ pk', emailConfigMissing { env with privateKey := pk' } = emailConfigMissing env) ∧
    (∀ pk' sendOk, (POST req { env with privateKey := pk' } now attempts sendOk autoOk).1 ≠
      Outcome.notConfigured) ∧
    (∀ pk', (POST req { env with privateKey := pk' } now attempts false autoOk).1 =
      Outcome.sendFailed) ∧
    Outcome.status Outcome.sendFailed = 500 := by
  obtain ⟨h1, h2, h3, h4⟩ := hv
  have hcm : ∀ pk', emailConfigMissing { env with privateKey := pk' } = false := by
    intro pk'
    simp [emailConfigMissing, hs, ht, hp]
  refine ⟨?_, ?_, ?_, rfl⟩
  · intro pk'
    rw [hcm pk']
    simp [emailConfigMissing, hs, ht, hp]
  · intro pk' sendOk
    simp only [POST, hallow, hcs, hb, h1, h2, h3, h4, hcm pk', Bool.not_true,
      Bool.false_eq_true, if_false, Bool.false_or, Bool.or_self]
    split_ifs <;> simp
  · intro pk'
    simp [POST, hallow, hcs, hb, h1, h2, h3, h4, hcm pk']

/-- Witness for C10: private key absent, the three ids set, dispatch failing —
the response is the catch-all 500, not "not configured". -/
theorem config_guard_ignores_private_key_witness :
    (POST sampleReq { sampleEnv with privateKey := none } 0 [] false true).1 =
      Outcome.sendFailed :=
  (config_guard_ignores_private_key sampleReq sampleEnv 0 [] true sampleBody
    (by decide) (by decide) rfl (by decide) (by decide) (by decide)
    (by decide)).2.2.1 none
